import Mathlib

/-!
Shallow embedding of the `powerpack` disk cache subsystem
(`crates/cache/src/lib.rs`) together with the environment-variable helpers
(`src/env.rs`) it relies on.  Times and durations are modelled as natural
numbers of milliseconds; file contents at the level of a JSON value tree;
filesystem and process effects (reads, the detached refresh, the advisory
lock) are made explicit as parameters and returned state.
-/

namespace Powerpack

/-- A JSON value, at the granularity the entry codec needs. -/
inductive Json where
  | num (n : Nat)
  | str (s : String)
  | obj (fields : List (String × Json))

/-- Look up a field of a JSON object by key, mirroring how a JSON
deserializer locates struct fields by name. -/
def Json.lookup : List (String × Json) → String → Option Json
  | [], _ => none
  | (k, v) :: rest, key => if k = key then some v else Json.lookup rest key

/-- The cache entry record, `struct Data` in `crates/cache/src/lib.rs`:
`modified` (a `SystemTime`, modelled as milliseconds since the epoch),
`checksum` and the cached `data` payload. -/
structure Data where
  modified : Nat
  checksum : String
  data : String
  deriving DecidableEq, Repr

/-- Serialization of `Data` as performed by `json::to_writer`: a JSON
object with the three named fields, in declaration order. -/
def Data.toJson (d : Data) : Json :=
  .obj [("modified", .num d.modified), ("checksum", .str d.checksum),
        ("data", .str d.data)]

/-- Deserialization of `Data` as performed by `json::from_slice`: all
three named fields must be present with the right types. -/
def Data.fromJson : Json → Option Data
  | .obj fields =>
    match Json.lookup fields "modified", Json.lookup fields "checksum",
        Json.lookup fields "data" with
    | some (.num m), some (.str c), some (.str d) => some ⟨m, c, d⟩
    | _, _, _ => none
  | _ => none

/-- Contents of a file on disk: either a parsed JSON value or bytes that
do not parse as JSON (a truncated or corrupted entry). -/
inductive Contents where
  | json (j : Json)
  | malformed

/-- Deserializing the raw bytes of an entry file (`json::from_slice`
composed with the serde impl of `Data`). -/
def fromSlice : Contents → Option Data
  | .json j => Data.fromJson j
  | .malformed => none

/-- Kind of an I/O error returned by `fs::read`, distinguishing
`io::ErrorKind::NotFound` from every other kind (identified by a code). -/
inductive IOKind where
  | notFound
  | other (code : Nat)
  deriving DecidableEq, Repr

/-- Result of one `fs::read` of the entry file. -/
inductive ReadResult where
  | ok (contents : Contents)
  | err (kind : IOKind)

/-- SystemTime subtraction `now.duration_since(earlier)`: fails when the
delta would be negative. -/
def durationSince (now earlier : Nat) : Option Nat :=
  if earlier ≤ now then some (now - earlier) else none

/-- Outcome of one `Cache::load` call, one constructor per distinct
error surfaced to the caller plus the success payload. -/
inductive LoadResult where
  | ok (data : String)
  | timeout
  | ioErr (code : Nat)
  | deserializeErr
  | clockSkewErr
  | spawnErr
  deriving DecidableEq, Repr

/-- Effects environment of one `Cache::load` call: the initial read of
the entry file, the wall-clock time observed at the staleness check, the
results of the reads attempted inside the poll window (one per loop
iteration before `poll_duration` elapses), and whether `detach::spawn`
succeeds. -/
structure LoadEnv where
  initial : ReadResult
  now : Nat
  polls : List ReadResult
  spawnOk : Bool

/-- What a `load` call produced: the returned value and whether a
detached refresh was successfully spawned. -/
structure LoadOut where
  result : LoadResult
  spawned : Bool

/-- The poll loop of `Cache::load`: each iteration re-attempts the read;
a failed read of any kind is skipped by the `if let Ok(data) = ...`
pattern, a successful read is deserialized with the `?` operator, and
exhausting the window yields the timeout error. -/
def pollLoop : List ReadResult → LoadResult
  | [] => .timeout
  | .ok c :: _ =>
    match fromSlice c with
    | some curr => .ok curr.data
    | none => .deserializeErr
  | .err _ :: rest => pollLoop rest

/-- The `needs_update` staleness computation in `Cache::load`:
`curr.checksum != checksum || now.duration_since(curr.modified)? > ttl`,
with the short-circuiting or of the source and the fallible subtraction;
`none` means the `?` operator returned the clock error from `load`. -/
def needsUpdate (curr : Data) (checksum : String) (now ttl : Nat) :
    Option Bool :=
  if curr.checksum ≠ checksum then some true
  else
    match durationSince now curr.modified with
    | some age => some (decide (age > ttl))
    | none => none

/-- The body of `Cache::load` (crates/cache/src/lib.rs, lines 159-201)
over the explicit effects environment. -/
def load (ttl : Nat) (checksum : String) (e : LoadEnv) : LoadOut :=
  match e.initial with
  | .ok bytes =>
    match fromSlice bytes with
    | none => ⟨.deserializeErr, false⟩
    | some curr =>
      match needsUpdate curr checksum e.now ttl with
      | none => ⟨.clockSkewErr, false⟩
      | some true =>
        if e.spawnOk then ⟨.ok curr.data, true⟩ else ⟨.spawnErr, false⟩
      | some false => ⟨.ok curr.data, false⟩
  | .err .notFound =>
    if e.spawnOk then ⟨pollLoop e.polls, true⟩ else ⟨.spawnErr, false⟩
  | .err (.other code) => ⟨.ioErr code, false⟩

/-- State of the two files `update` may touch for one key: the entry
file `data.json` and the staging file `data.tmp`. -/
structure FsState where
  entry : Option Contents
  tmp : Option Contents

/-- Outcome of `fmutex::try_lock(directory)?`: guard acquired, lock held
by another process (`None`), or an error acquiring the lock. -/
inductive LockResult where
  | acquired
  | held
  | lockErr

/-- Effects environment of one `update` run: the lock outcome, the
result of `f()` (`none` when `f` returns an error), success of each
filesystem step, and the wall-clock time recorded as `modified`. -/
structure UpdateEnv where
  lock : LockResult
  compute : Option String
  createDirOk : Bool
  createFileOk : Bool
  writeOk : Bool
  renameOk : Bool
  now : Nat

/-- Errors `update` can return, distinguished by origin (all are a
single anyhow error type in the source). -/
inductive UpdateErr where
  | lockFailed
  | computeFailed
  | ioFailed
  deriving DecidableEq, Repr

/-- What an `update` run produced: its return value, the resulting file
state, and whether `f` was invoked. -/
structure UpdateOut where
  result : Except UpdateErr Bool
  fs : FsState
  computed : Bool

/-- The `update` function (crates/cache/src/lib.rs, lines 204-227):
under the advisory lock, compute, write the new record to the staging
file and atomically rename it over the entry file; any failing step
aborts with an error at that point. A successful `File::create`
truncates the staging file, so an interrupted serialization leaves the
staging file malformed while a failed rename leaves it holding the full
record; the entry file itself changes only by the rename. -/
def update (checksum : String) (env : UpdateEnv) (fs : FsState) :
    UpdateOut :=
  match env.lock with
  | .lockErr => ⟨.error .lockFailed, fs, false⟩
  | .held => ⟨.ok false, fs, false⟩
  | .acquired =>
    match env.compute with
    | none => ⟨.error .computeFailed, fs, true⟩
    | some data =>
      if env.createDirOk = false then ⟨.error .ioFailed, fs, true⟩
      else if env.createFileOk = false then ⟨.error .ioFailed, fs, true⟩
      else
        let record : Data := ⟨env.now, checksum, data⟩
        if env.writeOk = false then
          ⟨.error .ioFailed, ⟨fs.entry, some .malformed⟩, true⟩
        else if env.renameOk = false then
          ⟨.error .ioFailed, ⟨fs.entry, some (.json record.toJson)⟩, true⟩
        else
          ⟨.ok true, ⟨some (.json record.toJson), none⟩, true⟩

/-- Raw value of a variable in the process environment: absent, present
but not valid Unicode, or present with a string value. -/
inductive RawValue where
  | absent
  | notUnicode
  | val (s : String)
  deriving DecidableEq, Repr

/-- The process environment, as seen by `std::env::var`. -/
def EnvMap := String → RawValue

/-- Update one key of the process environment (used to compare `build`
under two environments). -/
def setEnv (env : EnvMap) (key : String) (v : RawValue) : EnvMap :=
  fun k => if k = key then v else env k

/-- The function `var` of src/env.rs (lines 25-27):
`env::var(key).ok().filter(|s| !s.is_empty())`, so absence, invalid
Unicode and the empty string all map to `None`. -/
def var (env : EnvMap) (key : String) : Option String :=
  match env key with
  | .val s => if s.isEmpty then none else some s
  | _ => none

/-- `env::workflow_cache` (src/env.rs, lines 79-81): the
`alfred_workflow_cache` variable as a path. Paths are modelled as lists
of joined segments. -/
def workflow_cache (env : EnvMap) : Option (List String) :=
  (var env "alfred_workflow_cache").map (fun s => [s])

/-- `env::workflow_bundle_id` (src/env.rs, lines 57-59): the
`alfred_workflow_bundleid` variable. -/
def workflow_bundle_id (env : EnvMap) : Option String :=
  var env "alfred_workflow_bundleid"

/-- Builder state, `struct Builder` of crates/cache/src/lib.rs.
Durations are in milliseconds. -/
structure Builder where
  directory : Option (List String)
  bundle_id : Option String
  ttl : Option Nat
  poll_interval : Option Nat
  poll_duration : Option Nat
  deriving DecidableEq, Repr

/-- The built configuration, `struct Cache` of crates/cache/src/lib.rs. -/
structure Cache where
  directory : List String
  ttl : Nat
  poll_interval : Nat
  poll_duration : Nat
  deriving DecidableEq, Repr

/-- Errors of `Builder::build`, distinguished by origin. -/
inductive BuildError where
  | noBundleId
  | noHomeDir
  deriving DecidableEq, Repr

/-- The fixed path segment joined between the home directory and the
bundle id when the default cache directory is derived. -/
def workflowDataSegment : String :=
  "Library/Caches/com.runningwithcrayons.Alfred/Workflow Data"

/-- `Cache::builder` (crates/cache/src/lib.rs, lines 148-156): all
fields start unset. -/
def Cache.builder : Builder :=
  ⟨none, none, none, none, none⟩

/-- Assemble the `Cache` from a resolved directory and the builder's
remaining fields with their defaults, crates/cache/src/lib.rs lines
133-142: ttl 30s, poll_interval 100ms, poll_duration 1s. -/
def Builder.finish (b : Builder) (directory : List String) : Cache :=
  ⟨directory, b.ttl.getD 30000, b.poll_interval.getD 100,
    b.poll_duration.getD 1000⟩

/-- `Builder::build` (crates/cache/src/lib.rs, lines 109-143). The
current process environment and the result of `home::home_dir()` are
explicit parameters. -/
def build (b : Builder) (env : EnvMap) (home : Option (List String)) :
    Except BuildError Cache :=
  match b.directory with
  | some d => .ok (b.finish d)
  | none =>
    match workflow_cache env with
    | some d => .ok (b.finish d)
    | none =>
      match (workflow_bundle_id env).or b.bundle_id with
      | none => .error .noBundleId
      | some bid =>
        match home with
        | none => .error .noHomeDir
        | some h => .ok (b.finish (h ++ [workflowDataSegment, bid]))

end Powerpack

namespace Powerpack

/-- Helper: a poll window in which every read fails (with any error
kind) ends in the timeout error. -/
theorem pollLoop_all_err (polls : List ReadResult)
    (h : ∀ r ∈ polls, ∃ k, r = .err k) : pollLoop polls = .timeout := by
  induction polls with
  | nil => rfl
  | cons r rest ih =>
    obtain ⟨k, hk⟩ := h r (List.mem_cons_self r rest)
    subst hk
    simpa [pollLoop] using ih fun x hx => h x (List.mem_cons_of_mem _ hx)

/-- Helper: the first successful read in the poll window decides the
result: its contents are deserialized and either returned or surfaced as
a deserialization failure. -/
theorem pollLoop_first_ok (pre : List ReadResult) (c : Contents)
    (rest : List ReadResult) (h : ∀ r ∈ pre, ∃ k, r = .err k) :
    pollLoop (pre ++ .ok c :: rest) =
      (match fromSlice c with
       | some curr => .ok curr.data
       | none => .deserializeErr) := by
  induction pre with
  | nil => rfl
  | cons r rs ih =>
    obtain ⟨k, hk⟩ := h r (List.mem_cons_self r rs)
    subst hk
    simpa [pollLoop] using ih fun x hx => h x (List.mem_cons_of_mem _ hx)

/-- C7: round trip of the entry codec. Serializing the record
with checksum c, modified m and payload d and deserializing the result
gives back exactly (c, m, d). -/
theorem data_roundtrip (c : String) (m : Nat) (d : String) :
    Data.fromJson (Data.toJson ⟨m, c, d⟩) = some ⟨m, c, d⟩ := by
  simp [Data.toJson, Data.fromJson, Json.lookup]

/-- C1, counterexample: an entry that exists and deserializes, whose
checksum matches the requested one but whose modified time lies in the
future, makes `load` return the clock error instead of the stored data,
so the claim's unconditional "returns the stored entry.data" fails. -/
theorem load_present_future_modified_errors :
    (load 30 "c" ⟨.ok (.json (Data.toJson ⟨5, "c", "p"⟩)), 0, [], true⟩)
        = ⟨.clockSkewErr, false⟩ ∧
      LoadResult.clockSkewErr ≠ .ok "p" :=
  ⟨rfl, by decide⟩

/-- C1, amended: when the entry file exists and deserializes, spawning
succeeds, and the staleness formula is evaluable (the checksums differ,
short-circuiting the age computation, or the modified time is not in the
future), `load` returns the stored data and spawns a detached refresh
exactly when the checksum differs or the age exceeds the ttl; in
particular a fresh checksum-matching entry is served with no refresh
spawned, and `compute` (which only ever runs inside a spawned refresh)
is never invoked by the calling process. -/
theorem load_present_stale_while_revalidate (ttl : Nat) (checksum : String)
    (e : LoadEnv) (bytes : Contents) (curr : Data)
    (hinit : e.initial = .ok bytes) (hparse : fromSlice bytes = some curr)
    (hspawn : e.spawnOk = true)
    (hdef : curr.checksum ≠ checksum ∨ curr.modified ≤ e.now) :
    (load ttl checksum e).result = .ok curr.data ∧
      ((load ttl checksum e).spawned = true ↔
        (curr.checksum ≠ checksum ∨ e.now - curr.modified > ttl)) := by
  by_cases hc : curr.checksum = checksum
  · have hle : curr.modified ≤ e.now := by
      rcases hdef with h | h
      · exact absurd hc h
      · exact h
    by_cases hage : e.now - curr.modified > ttl
    · simp [load, hinit, hparse, needsUpdate, durationSince, hc, hle, hage,
        hspawn]
    · simp [load, hinit, hparse, needsUpdate, durationSince, hc, hle, hage,
        hspawn]
  · simp [load, hinit, hparse, needsUpdate, hc, hspawn]

/-- C1, witness: a fresh, matching entry at a concrete input is served
with no refresh spawned. -/
theorem load_present_stale_while_revalidate_witness :
    (load 30 "c" ⟨.ok (.json (Data.toJson ⟨0, "c", "p"⟩)), 10, [],
        true⟩).result = .ok "p" ∧
      ((load 30 "c" ⟨.ok (.json (Data.toJson ⟨0, "c", "p"⟩)), 10, [],
          true⟩).spawned = true ↔
        (("c" : String) ≠ "c" ∨ 10 - 0 > 30)) :=
  load_present_stale_while_revalidate 30 "c"
    ⟨.ok (.json (Data.toJson ⟨0, "c", "p"⟩)), 10, [], true⟩
    (.json (Data.toJson ⟨0, "c", "p"⟩)) ⟨0, "c", "p"⟩ rfl rfl rfl
    (Or.inr (by decide))

/-- C2: on a not-found initial read (with spawning succeeding), `load`
spawns a detached refresh and its result is that of the poll loop: if
every read in the window fails the result is the timeout error, and the
first successful read that deserializes yields its data; conversely the
timeout error arises from no branch of `load` other than the not-found
one. -/
theorem load_missing_polls (ttl : Nat) (checksum : String) (e : LoadEnv)
    (hspawn : e.spawnOk = true) :
    (e.initial = .err .notFound →
      (load ttl checksum e).spawned = true ∧
      (load ttl checksum e).result = pollLoop e.polls ∧
      ((∀ r ∈ e.polls, ∃ k, r = .err k) →
        (load ttl checksum e).result = .timeout) ∧
      (∀ pre c rest curr, e.polls = pre ++ .ok c :: rest →
        (∀ r ∈ pre, ∃ k, r = .err k) → fromSlice c = some curr →
        (load ttl checksum e).result = .ok curr.data)) ∧
    ((load ttl checksum e).result = .timeout →
      e.initial = .err .notFound) := by
  constructor
  · intro hinit
    have hload : load ttl checksum e = ⟨pollLoop e.polls, true⟩ := by
      simp [load, hinit, hspawn]
    refine ⟨by rw [hload], by rw [hload], ?_, ?_⟩
    · intro hall
      rw [hload]
      exact pollLoop_all_err _ hall
    · intro pre c rest curr hp hpre hc
      rw [hload]
      show pollLoop e.polls = .ok curr.data
      rw [hp, pollLoop_first_ok pre c rest hpre, hc]
  · intro htime
    unfold load at htime
    split at htime
    · split at htime
      · simp at htime
      · split at htime
        · simp at htime
        · split at htime <;> simp at htime
        · simp at htime
    · rename_i heq
      exact heq
    · simp at htime

/-- C2, witness: a not-found read with an empty poll window spawns and
times out. -/
theorem load_missing_polls_witness :
    (load 30 "c" ⟨.err .notFound, 0, [], true⟩).spawned = true ∧
      (load 30 "c" ⟨.err .notFound, 0, [], true⟩).result = .timeout := by
  have h := load_missing_polls 30 "c" ⟨.err .notFound, 0, [], true⟩ rfl
  exact ⟨(h.1 rfl).1, (h.1 rfl).2.2.1 (by simp)⟩

/-- C3, counterexample: with the entry file absent and the only poll
read failing with a non-not-found I/O error (code 7), `load` returns the
timeout error — the poll-loop I/O error is swallowed by the
`if let Ok(data)` pattern, not returned to the caller. -/
theorem load_poll_io_error_swallowed :
    (load 30 "c" ⟨.err .notFound, 0, [.err (.other 7)], true⟩).result
        = .timeout ∧
      LoadResult.timeout ≠ .ioErr 7 :=
  ⟨rfl, by decide⟩

/-- C3, amended: a non-not-found I/O error on the initial read
propagates to the caller, and a deserialization failure propagates
wherever it occurs (initial read or first successful poll read); an I/O
error on a read inside the poll loop is ignored and polling simply
continues with the remaining window. -/
theorem load_error_propagation (ttl : Nat) (checksum : String)
    (e : LoadEnv) :
    (∀ code, e.initial = .err (.other code) →
      (load ttl checksum e).result = .ioErr code) ∧
    (∀ bytes, e.initial = .ok bytes → fromSlice bytes = none →
      (load ttl checksum e).result = .deserializeErr) ∧
    (e.initial = .err .notFound → e.spawnOk = true →
      ∀ pre c rest, e.polls = pre ++ .ok c :: rest →
        (∀ r ∈ pre, ∃ k, r = .err k) → fromSlice c = none →
        (load ttl checksum e).result = .deserializeErr) ∧
    (e.initial = .err .notFound → e.spawnOk = true →
      ∀ k rest, e.polls = .err k :: rest →
        (load ttl checksum e).result =
          (load ttl checksum ⟨e.initial, e.now, rest, e.spawnOk⟩).result) := by
  refine ⟨?_, ?_, ?_, ?_⟩
  · intro code hinit
    simp [load, hinit]
  · intro bytes hinit hbs
    simp [load, hinit, hbs]
  · intro hinit hspawn pre c rest hp hpre hc
    have : (load ttl checksum e).result = pollLoop e.polls := by
      simp [load, hinit, hspawn]
    rw [this, hp, pollLoop_first_ok pre c rest hpre, hc]
  · intro hinit hspawn k rest hp
    simp [load, hinit, hspawn, hp, pollLoop]

/-- C3, witness: a non-not-found I/O error on the initial read is
returned as that error. -/
theorem load_error_propagation_witness :
    (load 30 "c" ⟨.err (.other 7), 0, [], true⟩).result = .ioErr 7 :=
  (load_error_propagation 30 "c" ⟨.err (.other 7), 0, [], true⟩).1 7 rfl

/-- C4: with the lock acquired, failure of `compute` or of the
directory-creation, staging-file-creation or serialization steps makes
`update` return an error with the entry file exactly as before the call;
and across all runs the entry file changes only when `update` returns
`Ok(true)`, i.e. on the fully successful path ending in the single
atomic rename. -/
theorem update_failure_preserves_entry (checksum : String)
    (env : UpdateEnv) (fs : FsState) :
    (env.lock = .acquired →
      (env.compute = none ∨ env.createDirOk = false ∨
        env.createFileOk = false ∨ env.writeOk = false) →
      (∃ err, (update checksum env fs).result = .error err) ∧
        (update checksum env fs).fs.entry = fs.entry) ∧
    ((update checksum env fs).fs.entry ≠ fs.entry →
      (update checksum env fs).result = .ok true) := by
  obtain ⟨lk, cp, cd, cf, w, rn, now⟩ := env
  obtain ⟨entry, tmp⟩ := fs
  cases lk <;> rcases cp with _ | data <;>
    cases cd <;> cases cf <;> cases w <;> cases rn <;>
      simp [update]

/-- C4, witness: with the lock acquired and `compute` failing, `update`
leaves the entry file untouched. -/
theorem update_failure_preserves_entry_witness :
    (update "c" ⟨.acquired, none, true, true, true, true, 5⟩
        ⟨some .malformed, none⟩).fs.entry = some .malformed :=
  ((update_failure_preserves_entry "c"
      ⟨.acquired, none, true, true, true, true, 5⟩
      ⟨some .malformed, none⟩).1 rfl (Or.inl rfl)).2

/-- C5: when the advisory lock is already held by another process,
`update` returns `Ok(false)` with no error, does not invoke `compute`,
and leaves both the entry file and the staging file untouched. -/
theorem update_lock_contention (checksum : String) (env : UpdateEnv)
    (fs : FsState) (h : env.lock = .held) :
    update checksum env fs = ⟨.ok false, fs, false⟩ := by
  obtain ⟨lk, cp, cd, cf, w, rn, now⟩ := env
  obtain rfl : lk = .held := h
  rfl

/-- C5, witness: lock contention at a concrete input returns
`Ok(false)` and changes nothing. -/
theorem update_lock_contention_witness :
    update "c" ⟨.held, some "d", true, true, true, true, 0⟩ ⟨none, none⟩
      = ⟨.ok false, ⟨none, none⟩, false⟩ :=
  update_lock_contention "c" ⟨.held, some "d", true, true, true, true, 0⟩
    ⟨none, none⟩ rfl

/-- C6, counterexample: an entry with `modified` in the future but a
mismatched checksum is served successfully (the short-circuiting or
never computes the age), so the claim's unconditional "returns an
error" fails. -/
theorem load_future_modified_mismatch_returns_data :
    (load 30 "b" ⟨.ok (.json (Data.toJson ⟨1, "a", "p"⟩)), 0, [], true⟩)
        = ⟨.ok "p", true⟩ ∧
      LoadResult.ok "p" ≠ .clockSkewErr :=
  ⟨rfl, by decide⟩

/-- C6, amended: when the entry file exists and deserializes, its
checksum matches the requested one, and its modified time is later than
the current time, `load` returns the clock error rather than clamping
the age to zero or treating the entry as fresh; with a mismatched
checksum the age is never computed and the data is returned. -/
theorem load_clock_skew_error (ttl : Nat) (checksum : String)
    (e : LoadEnv) (bytes : Contents) (curr : Data)
    (hinit : e.initial = .ok bytes) (hparse : fromSlice bytes = some curr)
    (hcs : curr.checksum = checksum) (hfut : e.now < curr.modified) :
    (load ttl checksum e).result = .clockSkewErr := by
  have hd : durationSince e.now curr.modified = none := by
    simp [durationSince]
    omega
  simp [load, hinit, hparse, needsUpdate, hcs, hd]

/-- C6, witness: a matching checksum with a future modified time at a
concrete input yields the clock error. -/
theorem load_clock_skew_error_witness :
    (load 30 "c" ⟨.ok (.json (Data.toJson ⟨5, "c", "p"⟩)), 0, [],
        true⟩).result = .clockSkewErr :=
  load_clock_skew_error 30 "c"
    ⟨.ok (.json (Data.toJson ⟨5, "c", "p"⟩)), 0, [], true⟩
    (.json (Data.toJson ⟨5, "c", "p"⟩)) ⟨5, "c", "p"⟩ rfl rfl rfl
    (by decide)

/-- C8, counterexample: with no explicit directory, no host cache
directory, a bundle id available from the environment, but no home
directory, `build` still returns an error — so errors are not raised
exactly when no bundle id is available. -/
theorem build_error_without_home :
    build Cache.builder
        (fun k => if k = "alfred_workflow_bundleid" then .val "com.x"
          else .absent) none
      = .error .noHomeDir := by
  rfl

/-- C8, amended: `build` resolves the directory as the explicit override
if set, else the host cache directory, else the home-derived path using
the bundle id from the environment or the builder; it returns an error
exactly when no explicit or host directory was given and either no
bundle id is available from either source or the home directory cannot
be determined. -/
theorem build_resolution (b : Builder) (env : EnvMap)
    (home : Option (List String)) :
    (∀ d, b.directory = some d → build b env home = .ok (b.finish d)) ∧
    (∀ d, b.directory = none → workflow_cache env = some d →
      build b env home = .ok (b.finish d)) ∧
    (∀ bid h, b.directory = none → workflow_cache env = none →
      (workflow_bundle_id env).or b.bundle_id = some bid → home = some h →
      build b env home = .ok (b.finish (h ++ [workflowDataSegment, bid]))) ∧
    ((∃ err, build b env home = .error err) ↔
      (b.directory = none ∧ workflow_cache env = none ∧
        ((workflow_bundle_id env).or b.bundle_id = none ∨ home = none))) := by
  refine ⟨?_, ?_, ?_, ?_⟩
  · intro d hd
    simp [build, hd]
  · intro d hd hc
    simp [build, hd, hc]
  · intro bid h hd hc hb hh
    simp [build, hd, hc, hb, hh]
  · rcases hd : b.directory with _ | d
    · rcases hc : workflow_cache env with _ | d
      · rcases hb : (workflow_bundle_id env).or b.bundle_id with _ | bid
        · simp [build, hd, hc, hb]
        · rcases hh : home with _ | h
          · simp [build, hd, hc, hb, hh]
          · simp [build, hd, hc, hb, hh]
      · simp [build, hd, hc]
    · simp [build, hd]

/-- C8, witness: an explicitly configured directory is used as is. -/
theorem build_resolution_witness :
    build ⟨some ["x"], none, none, none, none⟩ (fun _ => .absent) none
      = .ok ⟨["x"], 30000, 100, 1000⟩ :=
  (build_resolution ⟨some ["x"], none, none, none, none⟩
    (fun _ => .absent) none).1 ["x"] rfl

/-- C9: `env::var` returns none for an absent variable, a non-Unicode
value, and the empty string; consequently an empty host cache-directory
variable leaves `workflow_cache` empty and `build` behaves exactly as if
the variable were unset, and an empty bundle-id variable leaves
`workflow_bundle_id` empty. -/
theorem var_empty_is_absent (env : EnvMap) (key : String) (b : Builder)
    (home : Option (List String)) :
    (env key = .absent → var env key = none) ∧
    (env key = .notUnicode → var env key = none) ∧
    (env key = .val "" → var env key = none) ∧
    (env "alfred_workflow_cache" = .val "" →
      workflow_cache env = none) ∧
    (env "alfred_workflow_cache" = .val "" →
      build b env home =
        build b (setEnv env "alfred_workflow_cache" .absent) home) ∧
    (env "alfred_workflow_bundleid" = .val "" →
      workflow_bundle_id env = none) := by
  refine ⟨?_, ?_, ?_, ?_, ?_, ?_⟩
  · intro h; simp [var, h]
  · intro h; simp [var, h]
  · intro h
    simp [var, h]
    rfl
  · intro h
    simp [workflow_cache, var, h]
    rfl
  · intro h
    have h1 : workflow_cache env = none := by
      simp [workflow_cache, var, h]
      rfl
    have h2 : workflow_cache (setEnv env "alfred_workflow_cache" .absent)
        = none := by
      unfold workflow_cache var setEnv
      rw [if_pos rfl]
      rfl
    have h3 : workflow_bundle_id (setEnv env "alfred_workflow_cache" .absent)
        = workflow_bundle_id env := by
      unfold workflow_bundle_id var setEnv
      rw [if_neg (by decide)]
    rcases hd : b.directory with _ | d
    · simp [build, hd, h1, h2, h3]
    · simp [build, hd]
  · intro h
    simp [workflow_bundle_id, var, h]
    rfl

/-- C9, witness: the empty string behaves as absent at a concrete
environment. -/
theorem var_empty_is_absent_witness :
    var (fun _ => RawValue.val "") "k" = none ∧
      workflow_cache (fun _ => RawValue.val "") = none :=
  ⟨(var_empty_is_absent (fun _ => RawValue.val "") "k" Cache.builder
      none).2.2.1 rfl,
    (var_empty_is_absent (fun _ => RawValue.val "") "k" Cache.builder
      none).2.2.2.1 rfl⟩

/-- C10: when the derived default path is used, the bundle id from the
environment wins: with the environment id set, the built directory joins
the environment value regardless of the builder's own bundle_id. -/
theorem build_env_bundle_id_priority (env : EnvMap) (h : List String)
    (ebid : String) (b : Builder) (hdir : b.directory = none)
    (hcache : workflow_cache env = none)
    (hebid : workflow_bundle_id env = some ebid) :
    build b env (some h)
      = .ok (b.finish (h ++ [workflowDataSegment, ebid])) := by
  have hb : (workflow_bundle_id env).or b.bundle_id = some ebid := by
    rw [hebid]
    rfl
  simp [build, hdir, hcache, hb]

/-- C10, witness: with both the environment id and the builder id set,
the environment id ends up in the path. -/
theorem build_env_bundle_id_priority_witness :
    build ⟨none, some "mine", none, none, none⟩
        (fun k => if k = "alfred_workflow_bundleid" then .val "envid"
          else .absent)
        (some ["home"])
      = .ok ⟨["home", workflowDataSegment, "envid"], 30000, 100, 1000⟩ :=
  build_env_bundle_id_priority
    (fun k => if k = "alfred_workflow_bundleid" then .val "envid"
      else .absent)
    ["home"] "envid" ⟨none, some "mine", none, none, none⟩ rfl rfl rfl

end Powerpack
